import Mathlib

/-!
Verification development for `src/dvd/video_utils.py` of the
deep-video-discovery repository.

The Python module is shallowly embedded below.  Pure string processing
(`_is_youtube_url`, `_convert_vtt_to_srt`, path manipulation) is translated
directly.  Filesystem state is modelled as a list of existing file paths plus
an explicit trace of effects.  The external libraries (yt-dlp, requests,
OpenCV) are modelled by their observable behaviour at the call sites: a video
capture is a record of (opened, fps, readable frame count), and each network
attempt of the subtitle downloader is summarised by its outcome, supplied as
an input to the embedded control flow.  Configuration values
(`config.VIDEO_DATABASE_FOLDER`, `config.VIDEO_FPS`), which live outside the
provided sources, are passed as parameters, following the spec's description
of them as external configuration.
-/

namespace DVD

/-! ## String helpers (Python built-ins, translated to executable Lean) -/

/-- Python whitespace characters stripped by `str.strip()` (ASCII range). -/
def isPySpace (c : Char) : Bool :=
  c == ' ' || c == '\t' || c == '\n' || c == '\r' || c == '\x0b' || c == '\x0c'

/-- `str.strip()` on a character list. -/
def stripCh (cs : List Char) : List Char :=
  ((cs.dropWhile isPySpace).reverse.dropWhile isPySpace).reverse

/-- `str.strip()`. -/
def pyStrip (s : String) : String := String.mk (stripCh s.toList)

/-- Check that `p` is a leading segment of `cs` (used for `str.startswith`). -/
def isPrefixCh : List Char → List Char → Bool
  | [], _ => true
  | _ :: _, [] => false
  | p :: ps, c :: cs => p == c && isPrefixCh ps cs

/-- Python `s.startswith(p)`. -/
def strStartsWith (s p : String) : Bool := isPrefixCh p.toList s.toList

/-- Python `s.endswith(p)`. -/
def strEndsWith (s p : String) : Bool := isPrefixCh p.toList.reverse s.toList.reverse

/-- Python `pat in s` (substring containment) on character lists. -/
def hasSubCh (pat : List Char) : List Char → Bool
  | [] => isPrefixCh pat []
  | c :: cs => isPrefixCh pat (c :: cs) || hasSubCh pat cs

/-- Python `pat in s` (substring containment). -/
def hasSubstrStr (s pat : String) : Bool := hasSubCh pat.toList s.toList

/-- Python `str.lower()` (ASCII letters, which is all a hostname holds). -/
def strToLower (s : String) : String := String.mk (s.toList.map Char.toLower)

/-- Python `s.split(chr)` for a one-character separator, on character lists. -/
def splitLinesCh (sep : Char) : List Char → List (List Char)
  | [] => [[]]
  | c :: rest =>
    if c == sep then [] :: splitLinesCh sep rest
    else
      match splitLinesCh sep rest with
      | [] => [[c]]
      | g :: gs => (c :: g) :: gs

/-- Python `s.split(sep)` for a one-character separator string. -/
def pySplit (s : String) (sep : Char) : List String :=
  (splitLinesCh sep s.toList).map String.mk

/-- Python `sep.join(parts)` for separator `"\n"`, on character lists. -/
def joinNLCh : List (List Char) → List Char
  | [] => []
  | [x] => x
  | x :: y :: xs => x ++ '\n' :: joinNLCh (y :: xs)

/-! ## Path helpers (`os.path`, POSIX flavour) -/

/-- `os.path.basename`: the part of the path after the last slash. -/
def basename (p : String) : String :=
  String.mk ((p.toList.reverse.takeWhile (fun c => !(c == '/'))).reverse)

/-- Index of the last occurrence of `c` in `cs`, if any (Python `str.rfind`). -/
def lastIdxOf (c : Char) (cs : List Char) : Option Nat :=
  match cs.reverse.findIdx? (fun x => x == c) with
  | none => none
  | some i => some (cs.length - 1 - i)

/-- `os.path.splitext(p)[0]`, following CPython `posixpath.splitext`: split at
the last dot provided it comes after the last slash and some non-dot character
of the final component precedes it. -/
def splitextStem (p : String) : String :=
  let cs := p.toList
  let sepIdx : Int := match lastIdxOf '/' cs with | none => -1 | some i => (i : Int)
  let dotIdx : Int := match lastIdxOf '.' cs with | none => -1 | some i => (i : Int)
  if sepIdx < dotIdx then
    if ((cs.drop (sepIdx + 1).toNat).take (dotIdx - sepIdx - 1).toNat).any
        (fun c => !(c == '.')) then
      String.mk (cs.take dotIdx.toNat)
    else p
  else p

/-! ## `_is_youtube_url` -/

/-- The `netloc` component that `urllib.parse.urlparse` yields for the
`http://` / `https://` URLs handled by the module: the text after `//` up to
the next `/`, `?` or `#`. -/
def netlocOf (url : String) : String :=
  if strStartsWith url "http://" then
    String.mk ((url.toList.drop 7).takeWhile
      (fun c => !(c == '/' || c == '?' || c == '#')))
  else if strStartsWith url "https://" then
    String.mk ((url.toList.drop 8).takeWhile
      (fun c => !(c == '/' || c == '?' || c == '#')))
  else ""

/-- `_is_youtube_url`: the lowercased netloc ends with `youtube.com` or
`youtu.be`. -/
def is_youtube_url (url : String) : Bool :=
  let host := strToLower (netlocOf url)
  strEndsWith host "youtube.com" || strEndsWith host "youtu.be"

/-! ## `load_video` -/

/-- Filesystem effects performed by `load_video`, in program order. -/
inductive Eff
  | mkdirRaw
  | copyFile (src dst : String)
  | externalDownload (url : String)
  deriving DecidableEq, Repr

/-- Errors `load_video` can raise. -/
inductive LoadErr
  | invalidUrl
  | invalidSource
  | fileNotFound (p : String)
  deriving DecidableEq, Repr

/-- Does the effect create a file (directory creation is not a file write)? -/
def writesFile : Eff → Bool
  | Eff.mkdirRaw => false
  | Eff.copyFile _ _ => true
  | Eff.externalDownload _ => true

/-- `load_video(video_source, with_subtitle, subtitle_source)`.

`fs` is the set of files that exist when the call starts (`os.path.isfile`
and `shutil.copy2` success are decided against it), `dbRoot` is the external
configuration value `config.VIDEO_DATABASE_FOLDER`.  The returned pair is the
result of the call (`Except.error` models a raised exception) together with
the trace of effects performed before returning or raising.  The YouTube
download itself is an external-client call whose produced path is not
modelled; no claim depends on that branch's successful outcome. -/
def load_video (dbRoot : String) (fs : List String) (video_source : String)
    (with_subtitle : Bool) (subtitle_source : Option String) :
    Except LoadErr String × List Eff :=
  let raw_video_dir := dbRoot ++ "/raw"
  if strStartsWith video_source "http://" || strStartsWith video_source "https://" then
    if !(is_youtube_url video_source) then
      (Except.error LoadErr.invalidUrl, [Eff.mkdirRaw])
    else
      (Except.ok (raw_video_dir ++ "/external-download.mp4"),
        [Eff.mkdirRaw, Eff.externalDownload video_source])
  else if fs.contains video_source then
    let video_id := splitextStem (basename video_source)
    let video_destination := raw_video_dir ++ "/" ++ video_id ++ ".mp4"
    let effs := [Eff.mkdirRaw, Eff.copyFile video_source video_destination]
    match with_subtitle, subtitle_source with
    | true, some s =>
      if s.isEmpty then
        (Except.ok video_destination, effs)
      else if fs.contains s then
        (Except.ok video_destination,
          effs ++ [Eff.copyFile s (splitextStem video_destination ++ ".srt")])
      else
        (Except.error (LoadErr.fileNotFound s), effs)
    | _, _ => (Except.ok video_destination, effs)
  else
    (Except.error LoadErr.invalidSource, [Eff.mkdirRaw])

/-- The set of existing files after an effect runs. -/
def applyEff (fs : List String) : Eff → List String
  | Eff.mkdirRaw => fs
  | Eff.copyFile _ dst => dst :: fs
  | Eff.externalDownload _ => fs

/-- The set of existing files after a trace of effects runs. -/
def runEffs (fs : List String) (es : List Eff) : List String := es.foldl applyEff fs

/-! ## `download_srt_subtitle`

The network attempts are external yt-dlp / requests calls; each attempt of the
two loops is summarised by its observable outcome, and the embedded function
reproduces the control flow of the Python loops over those outcomes. -/

/-- `max_retries = 3`. -/
def max_retries : Nat := 3

/-- The `player_clients` list: with a cookies file, `[['web']] * max_retries`;
without one, `[['android'], ['ios'], ['web']]`. -/
def player_clients (cookies : Bool) : List (List String) :=
  if cookies then List.replicate max_retries ["web"]
  else [["android"], ["ios"], ["web"]]

/-- The declared client identity of attempt number `attempt`:
`player_clients[attempt % len(player_clients)]`. -/
def clientForAttempt (cookies : Bool) (attempt : Nat) : List String :=
  (player_clients cookies).getD (attempt % (player_clients cookies).length) []

/-- The backoff before retrying after bot detection on attempt `attempt`:
`wait_time = (attempt + 1) * 3` seconds. -/
def botWaitTime (attempt : Nat) : Nat := (attempt + 1) * 3

/-- Observable outcome of one iteration of METHOD 1 (built-in yt-dlp subtitle
download).  `success` covers both the normal success path and the path where a
subtitle file is found in the output directory despite a raised error. -/
inductive M1Outcome
  | success      -- a non-empty subtitle file was produced and moved into place
  | noFile       -- download ran but produced no subtitle file
  | formatErr    -- DownloadError/ExtractorError mentioning format availability
  | botErr       -- DownloadError/ExtractorError flavoured as bot detection
  | otherDlErr   -- any other DownloadError/ExtractorError
  | otherExc     -- any other exception
  deriving DecidableEq, Repr

/-- Observable outcome of one iteration of METHOD 2 (direct subtitle-URL
fetch): either the subtitle file is written, or some exception occurs. -/
inductive M2Outcome
  | success
  | failure
  deriving DecidableEq, Repr

/-- How the METHOD 1 loop exits. -/
inductive Method1Exit
  | done       -- returned with the subtitle in place
  | fallback   -- broke out to METHOD 2
  | botRaise   -- raised the bot-detection exhaustion message
  deriving DecidableEq, Repr

/-- The METHOD 1 `for attempt in range(max_retries)` loop over the outcomes of
its iterations (one list entry per executed iteration; an empty list means the
loop body never ran and control falls through to METHOD 2). -/
def method1Run : List M1Outcome → Method1Exit
  | [] => Method1Exit.fallback
  | o :: rest =>
    match o with
    | M1Outcome.success => Method1Exit.done
    | M1Outcome.noFile => Method1Exit.fallback
    | M1Outcome.formatErr => Method1Exit.fallback
    | M1Outcome.botErr =>
      match rest with
      | [] => Method1Exit.botRaise
      | _ :: _ => method1Run rest
    | M1Outcome.otherDlErr =>
      match rest with
      | [] => Method1Exit.fallback
      | _ :: _ => method1Run rest
    | M1Outcome.otherExc =>
      match rest with
      | [] => Method1Exit.fallback
      | _ :: _ => method1Run rest

/-- How the METHOD 2 loop exits.  Both the final-attempt exception (line
`raise FileNotFoundError(...: {e})`) and the fall-through after the loop
(`raise FileNotFoundError(... after {max_retries} attempts)`) raise a
`FileNotFoundError`. -/
inductive M2Exit
  | gotIt
  | notFound
  deriving DecidableEq, Repr

/-- The METHOD 2 loop over the outcomes of its iterations. -/
def method2Run : List M2Outcome → M2Exit
  | [] => M2Exit.notFound
  | o :: rest =>
    match o with
    | M2Outcome.success => M2Exit.gotIt
    | M2Outcome.failure =>
      match rest with
      | [] => M2Exit.notFound
      | _ :: _ => method2Run rest

/-- Result of a `download_srt_subtitle` call.  Constructors tagged `err*`
model raised exceptions, by class. -/
inductive DlResult
  | success
  | errNotYoutube      -- ValueError: not a valid YouTube link
  | errNoVideoId       -- ValueError: could not extract video ID
  | errBotDetection    -- Exception: bot detection after max_retries attempts
  | errFileNotFound    -- FileNotFoundError
  deriving DecidableEq, Repr

/-- `download_srt_subtitle(video_url, output_path)`: the URL validation and
video-id extraction, then METHOD 1 and METHOD 2 driven by the outcomes of
their external attempts. -/
def download_srt_subtitle (video_url : String) (m1 : List M1Outcome)
    (m2 : List M2Outcome) : DlResult :=
  if !(is_youtube_url video_url) then DlResult.errNotYoutube
  else if !(hasSubstrStr video_url "v=") then DlResult.errNoVideoId
  else
    match method1Run m1 with
    | Method1Exit.done => DlResult.success
    | Method1Exit.botRaise => DlResult.errBotDetection
    | Method1Exit.fallback =>
      match method2Run m2 with
      | M2Exit.gotIt => DlResult.success
      | M2Exit.notFound => DlResult.errFileNotFound

/-! ## `_convert_vtt_to_srt`

Lines are processed as stripped character lists.  The header-skip loop, the
inner text-collection loop and the outer cue loop of the Python function are
translated one-to-one. -/

/-- The metadata skip after the `WEBVTT` line: advance past lines until a
blank (stripped-empty) line, then past the blank line itself. -/
def dropMeta : List (List Char) → List (List Char)
  | [] => []
  | l :: ls => if stripCh l = [] then ls else dropMeta ls

/-- The header-skip loop: scan for the first line whose stripped text equals
or starts with `WEBVTT`, then skip its metadata block.  If no such line
exists the scan consumes everything (the Python index reaches `len(lines)`)
and the cue loop sees no lines. -/
def skipHeader : List (List Char) → List (List Char)
  | [] => []
  | l :: ls =>
    if stripCh l = "WEBVTT".toList || isPrefixCh "WEBVTT".toList (stripCh l) then
      dropMeta ls
    else skipHeader ls

/-- `line.replace('.', ',')` on a timestamp line. -/
def dotToComma (cs : List Char) : List Char :=
  cs.map (fun c => if c == '.' then ',' else c)

/-- The inner text-collection loop: consume stripped lines until a blank line
(left unconsumed; the outer loop skips it) or the end of input, keeping every
line that does not start with `<` or `&`.  Returns the collected text lines
and the remaining input. -/
def collectText : List (List Char) → List (List Char) × List (List Char)
  | [] => ([], [])
  | l :: ls =>
    let t := stripCh l
    if t = [] then ([], l :: ls)
    else
      let p := collectText ls
      if isPrefixCh ['<'] t || isPrefixCh ['&'] t then p
      else (t :: p.1, p.2)

theorem collectText_rest_le (ls : List (List Char)) :
    (collectText ls).2.length ≤ ls.length := by
  induction ls with
  | nil => simp [collectText]
  | cons l ls ih =>
    simp only [collectText]
    by_cases h : stripCh l = []
    · simp [h]
    · simp only [h, if_false]
      split
      · exact Nat.le_trans ih (Nat.le_succ _)
      · exact Nat.le_trans ih (Nat.le_succ _)

/-- The outer cue loop: skip blank lines; on a line holding `-->`, convert its
dots to commas, collect the following text lines, and if any were kept emit
the numbered SRT block (index, timestamp, joined text, blank separator). -/
def parseCues (idx : Nat) (ls : List (List Char)) : List (List Char) :=
  match ls with
  | [] => []
  | l :: rest =>
    let line := stripCh l
    if line = [] then parseCues idx rest
    else if hasSubCh "-->".toList line then
      let p := collectText rest
      if p.1 = [] then parseCues idx p.2
      else
        (Nat.repr idx).toList :: dotToComma line :: joinNLCh p.1 :: [] ::
          parseCues (idx + 1) p.2
    else parseCues idx rest
termination_by ls.length
decreasing_by
  all_goals simp only [List.length_cons]
  all_goals first
    | omega
    | exact Nat.lt_succ_of_le (collectText_rest_le _)

/-- `_convert_vtt_to_srt(vtt_content)`. -/
def convert_vtt_to_srt (vtt_content : String) : String :=
  let lines := splitLinesCh '\n' (stripCh vtt_content.toList)
  String.mk (joinNLCh (parseCues 1 (skipHeader lines)))

/-! ## `decode_video_to_frames`

The external decoder (`cv2.VideoCapture`) is modelled by what the function
observes of it: whether it opened, the frame rate reported by
`cap.get(cv2.CAP_PROP_FPS)` (`0` when not opened, as OpenCV reports), and how
many frames `cap.read()` yields before returning `ret = False`.  Frame rates
are rationals standing for the floating-point values; `int()` truncation of
the nonnegative rates involved coincides with the floor. -/

/-- What `decode_video_to_frames` observes of `cv2.VideoCapture(video_path)`. -/
structure Capture where
  opened : Bool
  fps : ℚ
  frames : Nat
  deriving DecidableEq, Repr

/-- The error a loop iteration raises. -/
inductive DecodeErr
  | zeroDivisionError
  deriving DecidableEq, Repr

/-- `frame_interval = int(fps / config.VIDEO_FPS)`. -/
def frame_interval (fps targetFps : ℚ) : Nat := (⌊fps / targetFps⌋).toNat

/-- The frames directory: `os.path.join(config.VIDEO_DATABASE_FOLDER,
video_id, "frames")` with `video_id = splitext(basename(video_path))[0]`. -/
def framesDirOf (dbRoot video_path : String) : String :=
  dbRoot ++ "/" ++ splitextStem (basename video_path) ++ "/frames"

/-- The saved-frame file name `frame_n{saved_count * frame_interval}.jpg`
joined onto the frames directory. -/
def frameName (dir : String) (k : Nat) : String :=
  dir ++ "/frame_n" ++ Nat.repr k ++ ".jpg"

/-- The decode loop.  Arguments: the interval, the number of frames still
readable, and the running `frame_count` and `saved_count`.  Each iteration
evaluates `frame_count % frame_interval`, which in Python raises
`ZeroDivisionError` when the interval is `0`; on a hit it records the index
`saved_count * frame_interval` used in the file name. -/
def decodeLoop (interval : Nat) : Nat → Nat → Nat → Except DecodeErr (List Nat)
  | 0, _, _ => Except.ok []
  | r + 1, fc, sc =>
    if interval = 0 then Except.error DecodeErr.zeroDivisionError
    else if fc % interval = 0 then
      match decodeLoop interval r (fc + 1) (sc + 1) with
      | Except.error e => Except.error e
      | Except.ok restIdxs => Except.ok (sc * interval :: restIdxs)
    else decodeLoop interval r (fc + 1) sc

/-- `decode_video_to_frames(video_path)`: returns the frames directory and
the list of frame file paths written, or the raised error.  `targetFps` is
the external configuration value `config.VIDEO_FPS`. -/
def decode_video_to_frames (dbRoot : String) (targetFps : ℚ) (cap : Capture)
    (video_path : String) : Except DecodeErr (String × List String) :=
  let frames_dir := framesDirOf dbRoot video_path
  let fps : ℚ := if cap.opened then cap.fps else 0
  let interval := frame_interval fps targetFps
  let total := if cap.opened then cap.frames else 0
  match decodeLoop interval total 0 0 with
  | Except.error e => Except.error e
  | Except.ok idxs => Except.ok (frames_dir, idxs.map (frameName frames_dir))

/-- Number of saved frames for a run of the decode loop: one per frame index
in `[fc, fc + r)` divisible by `m`. -/
def savedTally (m : Nat) : Nat → Nat → Nat
  | 0, _ => 0
  | r + 1, fc => (if fc % m = 0 then 1 else 0) + savedTally m r (fc + 1)

/-- Number of multiples of `m` below `n`. -/
def countMult (m : Nat) : Nat → Nat
  | 0 => 0
  | n + 1 => countMult m n + (if n % m = 0 then 1 else 0)

/-- Sampling interval as claim C1 words it:
`max(1, round(source_fps / target_fps))`. -/
def claimed_interval (fps targetFps : ℚ) : Nat :=
  max 1 (round (fps / targetFps)).toNat

/-- The file-name layout claim C9 asserts: `frame_n` followed by exactly six
digits (a zero-padded six-digit index) and the `.jpg` extension. -/
def claimedFrameFileName (s : String) : Bool :=
  let cs := s.toList
  strStartsWith s "frame_n" && strEndsWith s ".jpg" &&
    ((cs.drop 7).take (cs.length - 11)).length == 6 &&
    ((cs.drop 7).take (cs.length - 11)).all (fun c => c.isDigit)

/-! ## Behaviour of the decode loop -/

theorem decodeLoop_eq_ok (m : Nat) (hm : 1 ≤ m) :
    ∀ r fc sc, decodeLoop m r fc sc =
      Except.ok ((List.range (savedTally m r fc)).map (fun j => (sc + j) * m)) := by
  intro r
  induction r with
  | zero => intro fc sc; simp [decodeLoop, savedTally]
  | succ n ih =>
    intro fc sc
    have hm0 : ¬ m = 0 := by omega
    by_cases h : fc % m = 0
    · simp only [decodeLoop, if_neg hm0, if_pos h, ih (fc + 1) (sc + 1),
        savedTally, if_pos h]
      have e : 1 + savedTally m n (fc + 1) = savedTally m n (fc + 1) + 1 := by omega
      rw [e, List.range_succ_eq_map, List.map_cons, List.map_map]
      simp only [Nat.add_zero]
      have hfun : ((fun j => (sc + j) * m) ∘ Nat.succ) = (fun j => (sc + 1 + j) * m) := by
        funext j
        simp only [Function.comp_apply, Nat.succ_eq_add_one]
        ring
      rw [hfun]
    · simp only [decodeLoop, if_neg hm0, if_neg h, ih (fc + 1) sc,
        savedTally, if_neg h]
      simp

theorem savedTally_add_countMult (m : Nat) :
    ∀ r fc, savedTally m r fc + countMult m fc = countMult m (fc + r) := by
  intro r
  induction r with
  | zero => intro fc; simp [savedTally]
  | succ n ih =>
    intro fc
    have h1 : countMult m (fc + 1) = countMult m fc + (if fc % m = 0 then 1 else 0) := rfl
    have h2 := ih (fc + 1)
    have h3 : fc + 1 + n = fc + (n + 1) := by omega
    rw [h3] at h2
    by_cases h : fc % m = 0
    · rw [if_pos h] at h1
      simp only [savedTally, if_pos h]
      omega
    · rw [if_neg h] at h1
      simp only [savedTally, if_neg h]
      omega

theorem countMult_eq (m : Nat) (hm : 1 ≤ m) :
    ∀ n, countMult m n = (n + m - 1) / m := by
  have key : ∀ n, (n + m) / m = (n + m - 1) / m + (if n % m = 0 then 1 else 0) := by
    intro n
    match n with
    | 0 =>
      simp [Nat.div_self (show 0 < m by omega),
        Nat.div_eq_of_lt (show m - 1 < m by omega)]
    | k + 1 =>
      have hmpos : 0 < m := by omega
      have e1 : (k + 1 + m) / m = (k + 1) / m + 1 := Nat.add_div_right _ hmpos
      have e2 : (k + 1) / m = k / m + if m ∣ k + 1 then 1 else 0 := Nat.succ_div _ _
      have e3 : k + 1 + m - 1 = k + m := by omega
      have e4 : (k + m) / m = k / m + 1 := Nat.add_div_right _ hmpos
      have e5 : (m ∣ k + 1) ↔ ((k + 1) % m = 0) := Nat.dvd_iff_mod_eq_zero
      rw [e1, e2, e3, e4]
      by_cases h : (k + 1) % m = 0
      · rw [if_pos (e5.mpr h), if_pos h]
      · rw [if_neg (fun hd => h (e5.mp hd)), if_neg h]
  intro n
  induction n with
  | zero =>
    have h0 : countMult m 0 = 0 := rfl
    rw [h0, show 0 + m - 1 = m - 1 by omega,
      Nat.div_eq_of_lt (show m - 1 < m by omega)]
  | succ k ih =>
    have hs : countMult m (k + 1) = countMult m k + (if k % m = 0 then 1 else 0) := rfl
    have e : k + 1 + m - 1 = k + m := by omega
    rw [hs, ih, e, key k]

/-! ## Claims about `decode_video_to_frames` -/

/-- C1, counterexample: for a 10-frame video at 30 fps with a target rate of
1, `decode_video_to_frames` saves exactly one frame (the frame at index 0),
while the count claimed by C1, `floor(frame_count / interval)` with
`interval = max(1, round(30 / 1)) = 30`, is `floor(10 / 30) = 0`. -/
theorem decode_saved_count_claim_cex :
    decode_video_to_frames "db" 1 ⟨true, 30, 10⟩ "v.mp4" =
      Except.ok ("db/v/frames", ["db/v/frames/frame_n0.jpg"]) ∧
    10 / claimed_interval 30 1 = 0 := by
  constructor
  · have h : frame_interval 30 1 = 30 := by norm_num [frame_interval]; rfl
    simp only [decode_video_to_frames, if_pos, h]
    rfl
  · have h : claimed_interval 30 1 = 30 := by norm_num [claimed_interval]; rfl
    rw [h]

/-- C1 (amended): for an opened capture, when the interval the code computes,
`int(source_fps / target_fps)` (no rounding, no clamping), is at least 1, the
number of saved JPEG frames is the number of multiples of the interval below
`frame_count`, i.e. `ceil(frame_count / interval)`, written here as
`floor((frame_count + interval - 1) / interval)` — not
`floor(frame_count / interval)` of the original claim. -/
theorem decode_saved_count (dbRoot video_path : String) (targetFps : ℚ)
    (cap : Capture) (hop : cap.opened = true)
    (hm : 1 ≤ frame_interval cap.fps targetFps) :
    ∃ names, decode_video_to_frames dbRoot targetFps cap video_path =
        Except.ok (framesDirOf dbRoot video_path, names) ∧
      names.length = (cap.frames + frame_interval cap.fps targetFps - 1) /
        frame_interval cap.fps targetFps := by
  have hif : (if cap.opened then cap.fps else 0) = cap.fps := by rw [hop]; simp
  have htot : (if cap.opened then cap.frames else 0) = cap.frames := by rw [hop]; simp
  have hloop := decodeLoop_eq_ok (frame_interval cap.fps targetFps) hm cap.frames 0 0
  refine ⟨((List.range (savedTally (frame_interval cap.fps targetFps) cap.frames 0)).map
      (fun j => (0 + j) * frame_interval cap.fps targetFps)).map
      (frameName (framesDirOf dbRoot video_path)), ?_, ?_⟩
  · simp only [decode_video_to_frames, hif, htot]
    rw [hloop]
  · simp only [List.length_map, List.length_range]
    have h0 := savedTally_add_countMult (frame_interval cap.fps targetFps) cap.frames 0
    have hc0 : countMult (frame_interval cap.fps targetFps) 0 = 0 := rfl
    rw [Nat.zero_add, hc0, countMult_eq _ hm] at h0
    omega

/-- C1, witness: the amended count at the concrete input of the
counterexample: 30 fps, target 1, 10 frames, interval 30, one saved frame. -/
theorem decode_saved_count_witness :
    ∃ names, decode_video_to_frames "db" 1 ⟨true, 30, 10⟩ "v.mp4" =
        Except.ok (framesDirOf "db" "v.mp4", names) ∧
      names.length = (10 + frame_interval 30 1 - 1) / frame_interval 30 1 :=
  decode_saved_count "db" "v.mp4" 1 ⟨true, 30, 10⟩ rfl
    (by
      have h : frame_interval 30 1 = 30 := by norm_num [frame_interval]; rfl
      rw [h]
      omega)

/-- C2: the code computes `frame_interval = int(fps / config.VIDEO_FPS)` with
no clamping, so for a source rate below the configured target rate (here
10 fps against a target of 30) the interval is `int(10/30) = 0` and the first
loop iteration evaluates `frame_count % 0`, raising `ZeroDivisionError` —
the clamp to at least 1 described by the claim does not exist in the code. -/
theorem decode_low_fps_zero_division :
    decode_video_to_frames "db" 30 ⟨true, 10, 1⟩ "v.mp4" =
      Except.error DecodeErr.zeroDivisionError := by
  have h : frame_interval 10 30 = 0 := by norm_num [frame_interval]
  simp only [decode_video_to_frames, if_pos, h]
  rfl

/-- C7, counterexample: `decode_video_to_frames` performs no existence check
and raises nothing when the decoding library cannot open the path (OpenCV
leaves the capture unopened and reports fps 0 for a missing file): the call
returns the frames directory normally, contradicting the claim that it fails
with a not-found or runtime error and never returns normally. -/
theorem decode_missing_file_returns_cex :
    decode_video_to_frames "db" 24 ⟨false, 0, 0⟩ "absent.mp4" =
      Except.ok ("db/absent/frames", []) := by
  have h : frame_interval 0 24 = 0 := by norm_num [frame_interval]
  simp only [decode_video_to_frames, if_neg, h]
  rfl

/-- C7 (amended): for every path whose capture fails to open — a missing file
or one the decoding library cannot open — `decode_video_to_frames` returns
normally with the (created) frames directory and zero saved frames; no
not-found or runtime error is raised. -/
theorem decode_unopened_returns_ok (dbRoot video_path : String) (targetFps : ℚ)
    (cap : Capture) (hop : cap.opened = false) :
    decode_video_to_frames dbRoot targetFps cap video_path =
      Except.ok (framesDirOf dbRoot video_path, []) := by
  have hif : (if cap.opened then cap.fps else 0) = 0 := by rw [hop]; simp
  have htot : (if cap.opened then cap.frames else 0) = 0 := by rw [hop]; simp
  simp only [decode_video_to_frames, hif, htot]
  rfl

/-- C7, witness: the amended behaviour at a concrete unopened capture. -/
theorem decode_unopened_returns_ok_witness :
    decode_video_to_frames "db" 30 ⟨false, 0, 0⟩ "missing.mp4" =
      Except.ok (framesDirOf "db" "missing.mp4", []) :=
  decode_unopened_returns_ok "db" "missing.mp4" 30 ⟨false, 0, 0⟩ rfl

/-- C9, counterexample: a decode run whose first saved frame is named
`frame_n0.jpg` — `frame_n` followed by the unpadded decimal index — which
does not match the claimed zero-padded `frame_n######.jpg` layout. -/
theorem frame_name_layout_cex :
    decode_video_to_frames "db" 1 ⟨true, 2, 5⟩ "v.mp4" =
      Except.ok ("db/v/frames",
        ["db/v/frames/frame_n0.jpg", "db/v/frames/frame_n2.jpg",
          "db/v/frames/frame_n4.jpg"]) ∧
    claimedFrameFileName "frame_n0.jpg" = false := by
  constructor
  · have h : frame_interval 2 1 = 2 := by norm_num [frame_interval]; rfl
    simp only [decode_video_to_frames, if_pos, h]
    rfl
  · decide

/-- C9 (amended): every frame is saved under
`<database_root>/<id>/frames/` with name `frame_n` followed by the unpadded
decimal absolute frame index `saved_count * frame_interval` and `.jpg`: the
k-th saved file (k from 0) is `frame_n{k * interval}.jpg`. -/
theorem decode_frame_names (dbRoot video_path : String) (targetFps : ℚ)
    (cap : Capture) (hop : cap.opened = true)
    (hm : 1 ≤ frame_interval cap.fps targetFps) :
    ∃ names, decode_video_to_frames dbRoot targetFps cap video_path =
        Except.ok (framesDirOf dbRoot video_path, names) ∧
      names = (List.range names.length).map
        (fun k => framesDirOf dbRoot video_path ++ "/frame_n" ++
          Nat.repr (k * frame_interval cap.fps targetFps) ++ ".jpg") := by
  have hif : (if cap.opened then cap.fps else 0) = cap.fps := by rw [hop]; simp
  have htot : (if cap.opened then cap.frames else 0) = cap.frames := by rw [hop]; simp
  have hloop := decodeLoop_eq_ok (frame_interval cap.fps targetFps) hm cap.frames 0 0
  refine ⟨((List.range (savedTally (frame_interval cap.fps targetFps) cap.frames 0)).map
      (fun j => (0 + j) * frame_interval cap.fps targetFps)).map
      (frameName (framesDirOf dbRoot video_path)), ?_, ?_⟩
  · simp only [decode_video_to_frames, hif, htot]
    rw [hloop]
  · simp only [List.map_map, List.length_map, List.length_range]
    have hfun : (frameName (framesDirOf dbRoot video_path) ∘
        fun j => (0 + j) * frame_interval cap.fps targetFps) =
        (fun k => framesDirOf dbRoot video_path ++ "/frame_n" ++
          Nat.repr (k * frame_interval cap.fps targetFps) ++ ".jpg") := by
      funext j
      simp only [Function.comp_apply, Nat.zero_add, frameName]
    rw [hfun]

/-- C9, witness: the amended naming at a concrete decode run (interval 2,
five frames: `frame_n0.jpg`, `frame_n2.jpg`, `frame_n4.jpg`). -/
theorem decode_frame_names_witness :
    ∃ names, decode_video_to_frames "db" 1 ⟨true, 2, 5⟩ "v.mp4" =
        Except.ok (framesDirOf "db" "v.mp4", names) ∧
      names = (List.range names.length).map
        (fun k => framesDirOf "db" "v.mp4" ++ "/frame_n" ++
          Nat.repr (k * frame_interval 2 1) ++ ".jpg") :=
  decode_frame_names "db" "v.mp4" 1 ⟨true, 2, 5⟩ rfl
    (by
      have h : frame_interval 2 1 = 2 := by norm_num [frame_interval]; rfl
      rw [h]
      omega)

/-! ## Claims about `load_video` -/

/-- C3, counterexample: a local-file call with subtitles requested whose
subtitle file `subs.srt` does not exist fails with the not-found error, but
the video has already been copied: after the failure the canonical
destination `db/raw/vid.mp4` exists, contradicting the claim that no partial
copy is left in place. -/
theorem load_video_partial_copy_cex :
    (load_video "db" ["vid.mp4"] "vid.mp4" true (some "subs.srt")).1 =
      Except.error (LoadErr.fileNotFound "subs.srt") ∧
    "db/raw/vid.mp4" ∈
      runEffs ["vid.mp4"] (load_video "db" ["vid.mp4"] "vid.mp4" true (some "subs.srt")).2 := by
  constructor
  · rfl
  · decide

/-- C3 (amended): for a local source with subtitles requested, the video is
copied first; if the named subtitle file does not exist the call then fails
with a not-found error while the copied video remains at the canonical
destination; and no `.srt`-extension validation exists — if the subtitle
source exists under any name, the call succeeds and copies it. -/
theorem load_video_subtitle_gap (dbRoot : String) (fs : List String)
    (src sMissing sOther : String)
    (hu1 : strStartsWith src "http://" = false)
    (hu2 : strStartsWith src "https://" = false)
    (hsrc : fs.contains src = true)
    (hmiss : fs.contains sMissing = false) (hmne : sMissing.isEmpty = false)
    (hoth : fs.contains sOther = true) (hone : sOther.isEmpty = false) :
    ((load_video dbRoot fs src true (some sMissing)).1 =
        Except.error (LoadErr.fileNotFound sMissing) ∧
      (dbRoot ++ "/raw" ++ "/" ++ splitextStem (basename src) ++ ".mp4") ∈
        runEffs fs (load_video dbRoot fs src true (some sMissing)).2) ∧
    (load_video dbRoot fs src true (some sOther)).1 =
      Except.ok (dbRoot ++ "/raw" ++ "/" ++ splitextStem (basename src) ++ ".mp4") := by
  have hsrcm : src ∈ fs := by simpa using hsrc
  have hmissm : sMissing ∉ fs := by simpa using hmiss
  have hothm : sOther ∈ fs := by simpa using hoth
  refine ⟨⟨?_, ?_⟩, ?_⟩
  · simp [load_video, hu1, hu2, hsrcm, hmissm, hmne]
  · simp [load_video, hu1, hu2, hsrcm, hmissm, hmne, runEffs, applyEff,
      List.foldl_cons, List.foldl_nil]
  · simp [load_video, hu1, hu2, hsrcm, hothm, hone]

/-- C3, witness: the amended behaviour at a concrete filesystem: video
`vid.mp4` exists, `subs.srt` does not, `subs.txt` (wrong extension) does. -/
theorem load_video_subtitle_gap_witness :
    ((load_video "db" ["vid.mp4", "subs.txt"] "vid.mp4" true (some "subs.srt")).1 =
        Except.error (LoadErr.fileNotFound "subs.srt") ∧
      ("db" ++ "/raw" ++ "/" ++ splitextStem (basename "vid.mp4") ++ ".mp4") ∈
        runEffs ["vid.mp4", "subs.txt"]
          (load_video "db" ["vid.mp4", "subs.txt"] "vid.mp4" true (some "subs.srt")).2) ∧
    (load_video "db" ["vid.mp4", "subs.txt"] "vid.mp4" true (some "subs.txt")).1 =
      Except.ok ("db" ++ "/raw" ++ "/" ++ splitextStem (basename "vid.mp4") ++ ".mp4") :=
  load_video_subtitle_gap "db" ["vid.mp4", "subs.txt"] "vid.mp4" "subs.srt" "subs.txt"
    rfl rfl rfl rfl rfl rfl rfl

/-- C6: for a source string starting with `http://` or `https://` whose host
fails the code's YouTube check, `load_video` raises the invalid-URL input
error, and no effect of the call writes a file (only the storage directory
creation has happened). -/
theorem load_video_nonyoutube_url (dbRoot : String) (fs : List String)
    (url : String) (ws : Bool) (ss : Option String)
    (hhttp : strStartsWith url "http://" = true ∨ strStartsWith url "https://" = true)
    (hyt : is_youtube_url url = false) :
    (load_video dbRoot fs url ws ss).1 = Except.error LoadErr.invalidUrl ∧
    ∀ e ∈ (load_video dbRoot fs url ws ss).2, writesFile e = false := by
  have hcond : (strStartsWith url "http://" || strStartsWith url "https://") = true := by
    rcases hhttp with h | h <;> simp [h]
  constructor
  · simp only [load_video, hcond, hyt, if_true]
    rfl
  · intro e he
    simp only [load_video, hcond, hyt, if_true] at he
    simp only [Bool.not_false, if_true, List.mem_singleton] at he
    rw [he]
    rfl

/-- C6, witness: the behaviour at the concrete non-YouTube URL
`https://example.com/a.mp4`. -/
theorem load_video_nonyoutube_url_witness :
    (load_video "db" [] "https://example.com/a.mp4" false none).1 =
      Except.error LoadErr.invalidUrl ∧
    ∀ e ∈ (load_video "db" [] "https://example.com/a.mp4" false none).2,
      writesFile e = false :=
  load_video_nonyoutube_url "db" [] "https://example.com/a.mp4" false none
    (Or.inr (by decide)) (by decide)

/-! ## Claims about `download_srt_subtitle` -/

/-- C5: whenever METHOD 1 exits to the fallback without a subtitle and every
METHOD 2 attempt fails, `download_srt_subtitle` terminates by raising a
`FileNotFoundError` — it neither returns normally nor diverges (the embedded
control flow is a total function). -/
theorem download_exhaustion_not_found (video_url : String)
    (m1 : List M1Outcome) (m2 : List M2Outcome)
    (hyt : is_youtube_url video_url = true)
    (hv : hasSubstrStr video_url "v=" = true)
    (hm1 : method1Run m1 = Method1Exit.fallback)
    (hm2 : ∀ o ∈ m2, o = M2Outcome.failure) :
    download_srt_subtitle video_url m1 m2 = DlResult.errFileNotFound := by
  have hm2' : method2Run m2 = M2Exit.notFound := by
    induction m2 with
    | nil => rfl
    | cons o rest ih =>
      have ho : o = M2Outcome.failure := hm2 o (List.mem_cons_self _ _)
      subst ho
      match rest with
      | [] => rfl
      | p :: rest' =>
        have : method2Run (p :: rest') = M2Exit.notFound :=
          ih (fun x hx => hm2 x (List.mem_cons_of_mem _ hx))
        simpa [method2Run] using this
  simp [download_srt_subtitle, hyt, hv, hm1, hm2']

/-- C5, witness: exhaustion at a concrete run — METHOD 1 hits a format error
on its first attempt and falls back, and all three METHOD 2 attempts fail. -/
theorem download_exhaustion_not_found_witness :
    download_srt_subtitle "https://www.youtube.com/watch?v=abc"
      [M1Outcome.formatErr]
      [M2Outcome.failure, M2Outcome.failure, M2Outcome.failure] =
      DlResult.errFileNotFound :=
  download_exhaustion_not_found "https://www.youtube.com/watch?v=abc"
    [M1Outcome.formatErr]
    [M2Outcome.failure, M2Outcome.failure, M2Outcome.failure]
    (by decide) (by decide) rfl (by decide)

/-- C10: a URL that passes the YouTube-host check but holds no `v=`
parameter (such as a `youtu.be/<id>` short link) makes
`download_srt_subtitle` raise the could-not-extract-video-ID input error,
whatever the download strategies would return — no strategy is attempted. -/
theorem download_missing_v_param (video_url : String)
    (m1 : List M1Outcome) (m2 : List M2Outcome)
    (hyt : is_youtube_url video_url = true)
    (hv : hasSubstrStr video_url "v=" = false) :
    download_srt_subtitle video_url m1 m2 = DlResult.errNoVideoId := by
  simp [download_srt_subtitle, hyt, hv]

/-- C10, witness: the short link `https://youtu.be/dQw4w9WgXcQ` with
strategy outcomes that would succeed — the input error is raised anyway. -/
theorem download_missing_v_param_witness :
    download_srt_subtitle "https://youtu.be/dQw4w9WgXcQ"
      [M1Outcome.success] [M2Outcome.success] = DlResult.errNoVideoId :=
  download_missing_v_param "https://youtu.be/dQw4w9WgXcQ"
    [M1Outcome.success] [M2Outcome.success] (by decide) (by decide)

/-- C8, counterexample: when a cookies file is configured,
`player_clients = [['web']] * max_retries`, so attempt 1 declares the same
client identity as attempt 0 — the claim that every retry uses a different
identity than the previous attempt, including when cookies are configured,
is false. -/
theorem cookies_same_client_cex :
    clientForAttempt true 1 = clientForAttempt true 0 := by decide

/-- C8 (amended): every bot-detection retry waits `(attempt + 1) * 3`
seconds, a fixed 3-second increment over the previous wait; without a
cookies file consecutive attempts use distinct client identities
(android, ios, web); with a cookies file every attempt uses the same
`web` identity. -/
theorem retry_backoff_and_clients :
    (∀ k, botWaitTime (k + 1) = botWaitTime k + 3) ∧
    (∀ k, k + 1 < max_retries →
      clientForAttempt false (k + 1) ≠ clientForAttempt false k) ∧
    (∀ k, clientForAttempt true k = ["web"]) := by
  refine ⟨fun k => by simp [botWaitTime]; ring, fun k hk => ?_, fun k => ?_⟩
  · have hk2 : k = 0 ∨ k = 1 := by
      simp [max_retries] at hk
      omega
    rcases hk2 with h | h <;> subst h <;> decide
  · have h3 : k % 3 < 3 := Nat.mod_lt _ (by norm_num)
    have : k % 3 = 0 ∨ k % 3 = 1 ∨ k % 3 = 2 := by omega
    rcases this with h | h | h <;>
      simp [clientForAttempt, player_clients, max_retries, h, List.replicate]

/-- C8, witness: the amended behaviour at concrete attempts: the second wait
is 3 seconds longer than the first, attempts 0 and 1 without cookies use
different clients, and attempt 5 with cookies uses `web`. -/
theorem retry_backoff_and_clients_witness :
    botWaitTime 1 = botWaitTime 0 + 3 ∧
    clientForAttempt false 1 ≠ clientForAttempt false 0 ∧
    clientForAttempt true 5 = ["web"] :=
  ⟨retry_backoff_and_clients.1 0,
    retry_backoff_and_clients.2.1 0 (by decide),
    retry_backoff_and_clients.2.2 5⟩

/-! ## Claims about `_convert_vtt_to_srt` -/

/-- C4, counterexample: a cue whose only text line is `<i>Hello</i>` — the
converter drops every cue-text line that starts with `<` or `&` outright
rather than stripping the tags and keeping the remaining text, so the cue
has no text left and the whole cue is omitted: the output is empty, with no
block containing `Hello`. -/
theorem vtt_tag_line_dropped_cex :
    convert_vtt_to_srt "WEBVTT\n\n00:00:00.000 --> 00:00:01.000\n<i>Hello</i>" = "" := by
  simp [convert_vtt_to_srt, parseCues, collectText, skipHeader, dropMeta,
    stripCh, splitLinesCh, hasSubCh, isPrefixCh, isPySpace, joinNLCh, dotToComma]

/-- C4 (amended): the converter strips the WEBVTT header and leading
metadata block, converts each timestamp line's `.` separators to `,`, and
renumbers cues from 1 with blank-line separators; cue-text handling, however,
drops any line beginning with `<` or `&` entirely and keeps every other line
verbatim, inline markup included.  A minimal two-cue VTT without leading-tag
lines yields exactly blocks 1 and 2 with comma separators and no WEBVTT
header, and a cue with a mid-line tag keeps it while a leading-tag line
disappears. -/
theorem vtt_to_srt_behavior :
    convert_vtt_to_srt
        "WEBVTT\n\n00:00:00.000 --> 00:00:01.000\nHello\n\n00:00:01.000 --> 00:00:02.000\nWorld\n" =
      "1\n00:00:00,000 --> 00:00:01,000\nHello\n\n2\n00:00:01,000 --> 00:00:02,000\nWorld\n" ∧
    convert_vtt_to_srt
        "WEBVTT\nKind: captions\nLanguage: en\n\n00:00:00.000 --> 00:00:01.000\nStay <b>bold</b>\n<i>gone</i>\nEnd" =
      "1\n00:00:00,000 --> 00:00:01,000\nStay <b>bold</b>\nEnd\n" := by
  constructor <;>
    · simp [convert_vtt_to_srt, parseCues, collectText, skipHeader, dropMeta,
        stripCh, splitLinesCh, hasSubCh, isPrefixCh, isPySpace, joinNLCh, dotToComma]
      rfl

end DVD
